import Mathlib

/-!
Verification of the weather-API failover routing system.

Shallow embedding of:
- `apps/weather/services/api_router.py` (class `APIRouter`)
- `apps/weather/services/health_checker.py` (class `HealthChecker`)
- `apps/weather/services/api_providers/scraping_provider.py`
- `apps/weather/services/api_providers/external_provider.py`

Modelling decisions:
- The Django cache (a shared key-value store) is a `Store` record with one
  field per key family: `routing` stands for the single key "routing:current",
  `failed` for the keys "api:failed:<name>", `health` for "api:health:<name>",
  and `metricsSuccess` / `metricsFailure` for "api:metrics:<name>:success" and
  "api:metrics:<name>:failure".  TTL arguments to `cache.set` do not influence
  behaviour within a single call, so they are not represented in the state.
- `time.time()` is an `Int`-valued clock passed explicitly as `now`.
- A provider's externally observable behaviour during one routed request is a
  fixed outcome for `get_weather_forecast` (field `fetch`) and a fixed outcome
  for `health_check` (field `health`); a Python exception is `Outcome.exn`.
- Stateful methods return their result together with the updated `Store` and a
  trace of externally visible calls (`Event`): provider probes, provider
  fetches, and pattern-based routing-cache deletion.
-/

deriving instance DecidableEq for Except

namespace WeatherRouting

/-- Result of calling a Python function that may raise: either a value or an
exception carrying its message. -/
inductive Outcome (α : Type) where
  | ok (a : α)
  | exn (msg : String)
deriving DecidableEq, Repr

/-- `WeatherForecastResponseSchema` from `weather_api/schemas.py` (fields as
used in the repository's tests). -/
structure WeatherForecastResponseSchema where
  temperature : Int
  humidity : Int
  condition : String
  forecast_date : String
deriving DecidableEq, Repr

/-- One weather API provider, as seen by the router during a single request:
its identity plus the behaviour of its two capabilities for this request. -/
structure Provider where
  provider_name : String
  cost_per_request : Rat
  fetch : Outcome WeatherForecastResponseSchema
  health : Outcome Bool
deriving DecidableEq, Repr

/-- Decoded JSON value stored at an "api:health:<name>" key by
`HealthChecker._update_health_status`. -/
structure HealthData where
  status : String
  last_check : Int
  last_error : Option String
deriving DecidableEq, Repr

/-- The shared key-value store (Django cache), split by key family. -/
structure Store where
  routing : Option String
  failed : String → Option Int
  health : String → Option HealthData
  metricsSuccess : String → Option Nat
  metricsFailure : String → Option Nat

/-- Externally visible calls made while routing / sweeping. -/
inductive Event where
  | probe (name : String)
  | fetch (name : String)
  | clearRoutingPattern
deriving DecidableEq, Repr

/-! ### Python `dict` (insertion ordered, single binding per key)

`APIRouter.provider_map` is a Python dict comprehension over the provider
list; assigning an existing key keeps its position and replaces the value,
while a new key is appended. -/

/-- Insert-or-replace, preserving the position of an existing key. -/
def dictInsert : List (String × Provider) → String → Provider → List (String × Provider)
  | [], k, v => [(k, v)]
  | e :: rest, k, v => if e.1 = k then (k, v) :: rest else e :: dictInsert rest k v

/-- `{provider.provider_name: provider for provider in providers}`. -/
def providerMapOf (providers : List Provider) : List (String × Provider) :=
  providers.foldl (fun m p => dictInsert m p.provider_name p) []

/-- `dict.keys()`, in insertion order. -/
def dictKeys (m : List (String × Provider)) : List String := m.map Prod.fst

/-- `dict.get(k)`. -/
def dictGet : List (String × Provider) → String → Option Provider
  | [], _ => none
  | e :: rest, k => if e.1 = k then some e.2 else dictGet rest k

/-! ### `APIRouter` (api_router.py) -/

/-- `APIRouter`: the only construction-time state is the provider list;
`provider_map` is derived from it. -/
structure APIRouter where
  providers : List Provider

/-- `self.provider_map` (a dict built from the provider list). -/
def APIRouter.provider_map (r : APIRouter) : List (String × Provider) :=
  providerMapOf r.providers

/-- `APIRouter.ROUTING_CACHE_TTL` (seconds). -/
def ROUTING_CACHE_TTL : Nat := 3600

/-- `APIRouter.FAILED_CACHE_TTL` (seconds). -/
def FAILED_CACHE_TTL : Nat := 3600

/-- `APIRouter.RETRY_INTERVAL_SECONDS`. -/
def RETRY_INTERVAL_SECONDS : Int := 60

namespace APIRouter

/-- `APIRouter._get_cached_routing`: `cache.get("routing:current")`. -/
def _get_cached_routing (s : Store) : Option String :=
  s.routing

/-- `APIRouter._set_cached_routing`: `cache.set("routing:current", name, ttl)`. -/
def _set_cached_routing (s : Store) (name : String) : Store :=
  { s with routing := some name }

/-- `APIRouter._get_last_failed_timestamp`: `cache.get("api:failed:<name>")`. -/
def _get_last_failed_timestamp (s : Store) (name : String) : Option Int :=
  s.failed name

/-- `APIRouter._is_provider_failed`: the failure timestamp is present. -/
def _is_provider_failed (s : Store) (name : String) : Bool :=
  (_get_last_failed_timestamp s name).isSome

/-- `APIRouter._should_retry_provider`: a failure timestamp exists and
`time.time() - last_failed_at >= RETRY_INTERVAL_SECONDS`. -/
def _should_retry_provider (now : Int) (s : Store) (name : String) : Bool :=
  match _get_last_failed_timestamp s name with
  | none => false
  | some t => RETRY_INTERVAL_SECONDS ≤ now - t

/-- `APIRouter._mark_provider_failed`: `cache.set("api:failed:<name>", time.time(), ttl)`. -/
def _mark_provider_failed (now : Int) (s : Store) (name : String) : Store :=
  { s with failed := fun n => if n = name then some now else s.failed n }

/-- `APIRouter._clear_failed_timestamp`: `cache.delete("api:failed:<name>")`. -/
def _clear_failed_timestamp (s : Store) (name : String) : Store :=
  { s with failed := fun n => if n = name then none else s.failed n }

/-- `APIRouter._increment_success_metric`: `cache.incr`, initialising to 1 on
`ValueError` (missing key). -/
def incrCounter (c : Option Nat) : Option Nat :=
  match c with
  | some n => some (n + 1)
  | none => some 1

/-- `APIRouter._increment_success_metric` on key "api:metrics:<name>:success". -/
def _increment_success_metric (s : Store) (name : String) : Store :=
  { s with metricsSuccess :=
      fun n => if n = name then incrCounter (s.metricsSuccess n) else s.metricsSuccess n }

/-- `APIRouter._increment_failure_metric` on key "api:metrics:<name>:failure". -/
def _increment_failure_metric (s : Store) (name : String) : Store :=
  { s with metricsFailure :=
      fun n => if n = name then incrCounter (s.metricsFailure n) else s.metricsFailure n }

/-- `APIRouter._try_recovery`: look the provider up, call `health_check()`
inside try/except; on a healthy probe clear the failure record, otherwise
(False or exception) re-stamp the failure timestamp with `now`. -/
def _try_recovery (r : APIRouter) (now : Int) (s : Store) (name : String) :
    Bool × Store × List Event :=
  match dictGet r.provider_map name with
  | none => (false, s, [])
  | some p =>
    match p.health with
    | .ok true => (true, _clear_failed_timestamp s name, [.probe name])
    | .ok false => (false, _mark_provider_failed now s name, [.probe name])
    | .exn _ => (false, _mark_provider_failed now s name, [.probe name])

/-- The `for provider_name in self.provider_map.keys()` loop of
`APIRouter._select_provider`, building `available_providers` in iteration
order while threading the store and the call trace. -/
def selectLoop (r : APIRouter) (now : Int) :
    List String → Store → List String × Store × List Event
  | [], s => ([], s, [])
  | name :: rest, s =>
    if _should_retry_provider now s name then
      let t := _try_recovery r now s name
      let q := selectLoop r now rest t.2.1
      (if t.1 then name :: q.1 else q.1, q.2.1, t.2.2 ++ q.2.2)
    else if _is_provider_failed s name then
      selectLoop r now rest s
    else
      let q := selectLoop r now rest s
      (name :: q.1, q.2.1, q.2.2)

/-- `APIRouter._select_provider`: run the loop over `provider_map.keys()`;
with no available provider fall back to the hardcoded default "scraping",
otherwise prefer "scraping" when present and the first available name
otherwise. -/
def _select_provider (r : APIRouter) (now : Int) (s : Store) :
    String × Store × List Event :=
  let q := selectLoop r now (dictKeys r.provider_map) s
  match q.1 with
  | [] => ("scraping", q.2.1, q.2.2)
  | a :: rest =>
    if (a :: rest).contains "scraping" then ("scraping", q.2.1, q.2.2)
    else (a, q.2.1, q.2.2)

/-- The `for fallback_name in fallback_providers` loop of
`APIRouter._call_with_fallback`.  A missing map entry raises `KeyError`
inside the per-fallback try block, which the `except` clause treats like any
provider failure (failure metric + failure mark) before continuing. -/
def fallbackLoop (r : APIRouter) (now : Int) :
    List String → Store → Except String WeatherForecastResponseSchema × Store × List Event
  | [], s => (.error "All providers failed", s, [])
  | name :: rest, s =>
    match dictGet r.provider_map name with
    | none =>
      fallbackLoop r now rest (_mark_provider_failed now (_increment_failure_metric s name) name)
    | some p =>
      match p.fetch with
      | .ok resp =>
        let s1 := _set_cached_routing s name
        let s2 := _increment_success_metric s1 name
        let s3 := _clear_failed_timestamp s2 name
        (.ok resp, s3, [.fetch name])
      | .exn _ =>
        let s1 := _increment_failure_metric s name
        let s2 := _mark_provider_failed now s1 name
        let q := fallbackLoop r now rest s2
        (q.1, q.2.1, .fetch name :: q.2.2)

/-- `APIRouter._call_with_fallback`: try the primary provider; on success
cache the routing, bump the success metric and clear the failure record; on
failure bump the failure metric, mark it failed, and iterate the remaining
providers in `provider_map` order. -/
def _call_with_fallback (r : APIRouter) (now : Int) (primary : String) (s : Store) :
    Except String WeatherForecastResponseSchema × Store × List Event :=
  match dictGet r.provider_map primary with
  | none => (.error ("Provider not found: " ++ primary), s, [])
  | some p =>
    match p.fetch with
    | .ok resp =>
      let s1 := _set_cached_routing s primary
      let s2 := _increment_success_metric s1 primary
      let s3 := _clear_failed_timestamp s2 primary
      (.ok resp, s3, [.fetch primary])
    | .exn e =>
      let s1 := _increment_failure_metric s primary
      let s2 := _mark_provider_failed now s1 primary
      let fallbacks := (dictKeys r.provider_map).filter (fun n => n != primary)
      if fallbacks.isEmpty then
        (.error ("No fallback provider available, primary failed: " ++ e), s2, [.fetch primary])
      else
        let q := fallbackLoop r now fallbacks s2
        (q.1, q.2.1, .fetch primary :: q.2.2)

/-- `APIRouter.route_request`: use the cached routing assignment as primary
when present, otherwise run the dynamic selection pass (with lazy recovery),
then call with fallback.  `user_id` is only used for logging in the source. -/
def route_request (r : APIRouter) (user_id : Int) (now : Int) (s : Store) :
    Except String WeatherForecastResponseSchema × Store × List Event :=
  match _get_cached_routing s with
  | some cached => _call_with_fallback r now cached s
  | none =>
    let sel := _select_provider r now s
    let c := _call_with_fallback r now sel.1 sel.2.1
    (c.1, c.2.1, sel.2.2 ++ c.2.2)

end APIRouter

/-! ### Declarative view of the selection pass

These definitions follow the spec's wording for the per-provider eligibility
state machine (healthy / failed-in-cooldown / cooling-down-for-retry) as a
function of the store at the *start* of a selection pass; refinement theorems
relate them to `selectLoop`, which threads the store through the loop. -/

namespace APIRouter

/-- A provider name is eligible in this selection pass: either it has no
failure mark, or its cooldown has elapsed and its recovery probe succeeds. -/
def eligibleNow (r : APIRouter) (now : Int) (s : Store) (n : String) : Bool :=
  match s.failed n with
  | none => true
  | some t =>
    if RETRY_INTERVAL_SECONDS ≤ now - t then
      match dictGet r.provider_map n with
      | some p => p.health == .ok true
      | none => false
    else false

/-- The eligible providers of this selection pass, in registry order. -/
def eligibleProviders (r : APIRouter) (now : Int) (s : Store) : List String :=
  (dictKeys r.provider_map).filter (eligibleNow r now s)

/-- The recovery probe for `n` runs in this selection pass: its cooldown has
elapsed and the registry resolves the name. -/
def probeHappens (r : APIRouter) (now : Int) (s : Store) (n : String) : Bool :=
  _should_retry_provider now s n && (dictGet r.provider_map n).isSome

/-- Failure-mark entry for `n` after a selection pass that processed `n`. -/
def postFailed (r : APIRouter) (now : Int) (s : Store) (n : String) : Option Int :=
  if _should_retry_provider now s n then
    match dictGet r.provider_map n with
    | none => s.failed n
    | some p =>
      match p.health with
      | .ok true => none
      | _ => some now
  else s.failed n

end APIRouter

/-! ### Concrete providers (scraping_provider.py, external_provider.py)

Only the pieces the claims need: the identity constants and the
`health_check` implementations.  The HTTP layer (`requests.get` on the
provider's "/health" endpoint) is abstracted as an `HttpOutcome`: either a
response with a status code, or a raised exception. -/

/-- Behaviour of the underlying `requests.get` call during one probe. -/
inductive HttpOutcome where
  | response (status : Nat)
  | exn (msg : String)
deriving DecidableEq, Repr

/-- `requests.get(health_endpoint, ...)` as a fallible computation. -/
def requestsGetHealth (http : HttpOutcome) : Except String Nat :=
  match http with
  | .response status => .ok status
  | .exn e => .error e

namespace ScrapingWeatherProvider

/-- `ScrapingWeatherProvider.provider_name`. -/
def provider_name : String := "scraping"

/-- `ScrapingWeatherProvider.cost_per_request` (free). -/
def cost_per_request : Rat := 0

/-- The `try:` block of `ScrapingWeatherProvider.health_check`:
`response = requests.get(...); is_healthy = response.status_code == 200`. -/
def healthCheckBody (http : HttpOutcome) : Except String Bool :=
  (requestsGetHealth http).map (fun status => status == 200)

/-- `ScrapingWeatherProvider.health_check`: the try block with an
`except Exception` handler that swallows every error and returns `False`. -/
def health_check (http : HttpOutcome) : Bool :=
  match healthCheckBody http with
  | .ok b => b
  | .error _ => false

end ScrapingWeatherProvider

namespace ExternalWeatherProvider

/-- `ExternalWeatherProvider.provider_name`. -/
def provider_name : String := "external"

/-- `ExternalWeatherProvider.cost_per_request` ($0.01 per request). -/
def cost_per_request : Rat := mkRat 1 100

/-- The `try:` block of `ExternalWeatherProvider.health_check` (the added
`X-API-Key` header does not change the status handling). -/
def healthCheckBody (http : HttpOutcome) : Except String Bool :=
  (requestsGetHealth http).map (fun status => status == 200)

/-- `ExternalWeatherProvider.health_check`: try block plus the catch-all
`except Exception` handler returning `False`. -/
def health_check (http : HttpOutcome) : Bool :=
  match healthCheckBody http with
  | .ok b => b
  | .error _ => false

end ExternalWeatherProvider

/-! ### `HealthChecker` (health_checker.py) -/

/-- `HealthChecker`: holds the provider list to sweep. -/
structure HealthChecker where
  providers : List Provider

namespace HealthChecker

/-- `HealthChecker._update_health_status`: store the JSON health record at
"api:health:<name>" with no TTL. -/
def _update_health_status (now : Int) (s : Store) (name status : String)
    (err : Option String) : Store :=
  { s with health :=
      fun n => if n = name then some ⟨status, now, err⟩ else s.health n }

/-- `HealthChecker._get_previous_health_status`: read the stored record,
defaulting to "healthy" when absent. -/
def _get_previous_health_status (s : Store) (name : String) : String :=
  match s.health name with
  | some h => h.status
  | none => "healthy"

/-- `HealthChecker._check_provider`: call `health_check()` inside try/except
and persist the result ("healthy"/"unhealthy" plus error text). -/
def _check_provider (now : Int) (s : Store) (p : Provider) :
    Bool × Store × List Event :=
  match p.health with
  | .ok true =>
    (true, _update_health_status now s p.provider_name "healthy" none,
      [.probe p.provider_name])
  | .ok false =>
    (false, _update_health_status now s p.provider_name "unhealthy"
      (some "Health check returned False"), [.probe p.provider_name])
  | .exn e =>
    (false, _update_health_status now s p.provider_name "unhealthy"
      (some ("Health check exception: " ++ e)), [.probe p.provider_name])

/-- `HealthChecker._check_and_handle_recovery`: if the stored status reads
"unhealthy", delete every key matching "routing:*" (the bulk pattern
deletion); in this store model that clears the "routing:current" entry. -/
def _check_and_handle_recovery (s : Store) (name : String) : Store × List Event :=
  if _get_previous_health_status s name = "unhealthy" then
    ({ s with routing := none }, [.clearRoutingPattern])
  else (s, [])

/-- The `for provider in self.providers` loop of
`HealthChecker.check_all_providers`: check each provider (which persists the
new status) and, when the probe came back healthy, run recovery detection. -/
def checkLoop (now : Int) : List Provider → Store →
    List (String × Bool) × Store × List Event
  | [], s => ([], s, [])
  | p :: rest, s =>
    let c := _check_provider now s p
    let h := if c.1 then _check_and_handle_recovery c.2.1 p.provider_name else (c.2.1, [])
    let q := checkLoop now rest h.1
    ((p.provider_name, c.1) :: q.1, q.2.1, c.2.2 ++ h.2 ++ q.2.2)

/-- `HealthChecker.check_all_providers`: sweep every registered provider and
return the per-provider health map (distinct provider names make the Python
dict of results an association list). -/
def check_all_providers (hc : HealthChecker) (now : Int) (s : Store) :
    List (String × Bool) × Store × List Event :=
  checkLoop now hc.providers s

end HealthChecker

/-! ### Concrete instances used by the theorems -/

/-- The store with no keys set. -/
def emptyStore : Store :=
  ⟨none, fun _ => none, fun _ => none, fun _ => none, fun _ => none⟩

/-- A sample successful forecast payload (values from the repository tests). -/
def sampleResponse : WeatherForecastResponseSchema :=
  ⟨20, 60, "sunny", "2024-01-15"⟩

/-- A second successful forecast payload. -/
def sampleResponseB : WeatherForecastResponseSchema :=
  ⟨15, 70, "cloudy", "2024-01-20"⟩

/-- The scraping provider with both capabilities healthy. -/
def scrapingUp : Provider :=
  ⟨ScrapingWeatherProvider.provider_name, ScrapingWeatherProvider.cost_per_request,
    .ok sampleResponse, .ok true⟩

/-- The external provider with both capabilities healthy. -/
def externalUp : Provider :=
  ⟨ExternalWeatherProvider.provider_name, ExternalWeatherProvider.cost_per_request,
    .ok sampleResponseB, .ok true⟩

/-- The default registry: scraping first, external second. -/
def defaultRouter : APIRouter := ⟨[scrapingUp, externalUp]⟩

/-- A zero-cost provider whose name is not "scraping". -/
def zerocostUp : Provider := ⟨"zerocost", 0, .ok sampleResponse, .ok true⟩

/-- A paid provider listed before a zero-cost one. -/
def paidFirstRouter : APIRouter := ⟨[externalUp, zerocostUp]⟩

/-- A zero-cost provider named "alpha", listed before "scraping". -/
def alphaUp : Provider := ⟨"alpha", 0, .ok sampleResponse, .ok true⟩

/-- Two equal-cost providers with "scraping" second in registry order. -/
def equalCostRouter : APIRouter := ⟨[alphaUp, scrapingUp]⟩

/-- Scraping provider whose fetch raises (health probe fine). -/
def scrapingFetchDown : Provider :=
  ⟨"scraping", 0, .exn "A failed", .ok true⟩

/-- Both-capabilities-down providers (fetch raises, probe unhealthy). -/
def scrapingDown : Provider := ⟨"scraping", 0, .exn "A failed", .ok false⟩

/-- External provider with failing fetch and probe. -/
def externalDown : Provider := ⟨"external", mkRat 1 100, .exn "B failed", .ok false⟩

/-- Registry in which every provider's fetch raises. -/
def failRouter : APIRouter := ⟨[scrapingDown, externalDown]⟩

/-- Registry where the primary's fetch raises but the fallback works. -/
def fbRouter : APIRouter := ⟨[scrapingFetchDown, externalUp]⟩

/-- Store with a sticky routing assignment for "scraping". -/
def stickyStore : Store := { emptyStore with routing := some "scraping" }

/-- Store in which both default providers failed 10 seconds before t=110. -/
def cooldownStore : Store := { emptyStore with failed := fun _ => some 100 }

/-- Store with a failure mark for "scraping" stamped at t=0. -/
def failedScrapingStore : Store :=
  { emptyStore with failed := fun n => if n = "scraping" then some 0 else none }

/-- Store holding an "unhealthy" HealthRecord for "scraping" and an
outstanding routing assignment pointing at "external". -/
def sweepStore : Store :=
  { emptyStore with
      routing := some "external",
      health := fun n =>
        if n = "scraping" then some ⟨"unhealthy", 0, some "Previous error"⟩ else none }

/-- The sweep over the default providers. -/
def sweepChecker : HealthChecker := ⟨[scrapingUp, externalUp]⟩

/-- A paid provider named "ext" whose fetch and probe both fail. -/
def extDown : Provider := ⟨"ext", mkRat 1 100, .exn "B failed", .ok false⟩

/-- A registry with no provider named "scraping". -/
def noScrapingRouter : APIRouter := ⟨[extDown]⟩

/-- Store with a failure mark for "ext" stamped at t=0. -/
def failedExtStore : Store :=
  { emptyStore with failed := fun n => if n = "ext" then some 0 else none }

/-- Store identical to `emptyStore` except for metric counters. -/
def metricStore : Store :=
  { emptyStore with
      metricsSuccess := fun _ => some 5,
      metricsFailure := fun _ => some 7 }

end WeatherRouting


/-! ## Lemmas -/

namespace WeatherRouting

/-! ### Dictionary lemmas -/

theorem dictGet_mem_keys {m : List (String × Provider)} {k : String} {p : Provider}
    (h : dictGet m k = some p) : k ∈ dictKeys m := by
  induction m with
  | nil => simp [dictGet] at h
  | cons e rest ih =>
    by_cases he : e.1 = k
    · simp [dictKeys, he.symm]
    · simp only [dictGet, if_neg he] at h
      exact List.mem_cons_of_mem _ (ih h)

theorem dictGet_isSome_of_mem {m : List (String × Provider)} {k : String}
    (h : k ∈ dictKeys m) : (dictGet m k).isSome = true := by
  induction m with
  | nil => simp [dictKeys] at h
  | cons e rest ih =>
    by_cases he : e.1 = k
    · simp [dictGet, he]
    · simp only [dictKeys, List.map_cons, List.mem_cons] at h
      rcases h with h | h
      · exact absurd h.symm he
      · simp only [dictGet, if_neg he]
        exact ih h

theorem dictGet_mem_values {m : List (String × Provider)} {k : String} {q : Provider}
    (h : dictGet m k = some q) : q ∈ m.map Prod.snd := by
  induction m with
  | nil => simp [dictGet] at h
  | cons e rest ih =>
    by_cases he : e.1 = k
    · simp only [dictGet, if_pos he, Option.some.injEq] at h
      subst h
      simp
    · simp only [dictGet, if_neg he] at h
      simp [ih h]

theorem dictGet_eq_none_of_not_mem {m : List (String × Provider)} {k : String}
    (h : k ∉ dictKeys m) : dictGet m k = none := by
  cases hg : dictGet m k with
  | none => rfl
  | some p => exact absurd (dictGet_mem_keys hg) h

theorem dictKeys_dictInsert (m : List (String × Provider)) (k : String) (v : Provider) :
    dictKeys (dictInsert m k v) =
      if k ∈ dictKeys m then dictKeys m else dictKeys m ++ [k] := by
  induction m with
  | nil => simp [dictInsert, dictKeys]
  | cons e rest ih =>
    by_cases he : e.1 = k
    · simp [dictInsert, dictKeys, he]
    · have : ¬ (k = e.1) := fun h => he h.symm
      simp only [dictInsert, if_neg he, dictKeys, List.map_cons, List.mem_cons, this,
        false_or]
      simp only [dictKeys] at ih
      rw [ih]
      by_cases hk : k ∈ rest.map Prod.fst <;> simp [hk]

theorem dictKeys_providerMapOf_nodup (ps : List Provider) :
    (dictKeys (providerMapOf ps)).Nodup := by
  suffices h : ∀ (l : List Provider) (m : List (String × Provider)),
      (dictKeys m).Nodup → (dictKeys (l.foldl (fun m p => dictInsert m p.provider_name p) m)).Nodup by
    exact h ps [] (by simp [dictKeys])
  intro l
  induction l with
  | nil => intro m hm; simpa [providerMapOf] using hm
  | cons p rest ih =>
    intro m hm
    simp only [List.foldl_cons]
    apply ih
    rw [dictKeys_dictInsert]
    by_cases hk : p.provider_name ∈ dictKeys m
    · simpa [hk] using hm
    · rw [if_neg hk]
      refine hm.append (List.nodup_singleton _) ?_
      intro x hx hmem
      simp only [List.mem_singleton] at hmem
      subst hmem
      exact hk hx

theorem provider_map_keys_nodup (r : APIRouter) :
    (dictKeys r.provider_map).Nodup :=
  dictKeys_providerMapOf_nodup r.providers

/-! ### Basic store-operation lemmas -/

namespace APIRouter

theorem should_retry_iff (now : Int) (s : Store) (n : String) :
    _should_retry_provider now s n = true ↔
      ∃ t, s.failed n = some t ∧ RETRY_INTERVAL_SECONDS ≤ now - t := by
  unfold _should_retry_provider _get_last_failed_timestamp
  cases h : s.failed n <;> simp

theorem should_retry_congr {now : Int} {s1 s2 : Store} {n : String}
    (h : s1.failed n = s2.failed n) :
    _should_retry_provider now s1 n = _should_retry_provider now s2 n := by
  unfold _should_retry_provider _get_last_failed_timestamp
  rw [h]

theorem is_failed_congr {s1 s2 : Store} {n : String}
    (h : s1.failed n = s2.failed n) :
    _is_provider_failed s1 n = _is_provider_failed s2 n := by
  unfold _is_provider_failed _get_last_failed_timestamp
  rw [h]

theorem eligibleNow_congr {r : APIRouter} {now : Int} {s1 s2 : Store} {n : String}
    (h : s1.failed n = s2.failed n) :
    eligibleNow r now s1 n = eligibleNow r now s2 n := by
  unfold eligibleNow
  rw [h]

theorem postFailed_congr {r : APIRouter} {now : Int} {s1 s2 : Store} {n : String}
    (h : s1.failed n = s2.failed n) :
    postFailed r now s1 n = postFailed r now s2 n := by
  unfold postFailed
  rw [should_retry_congr h, h]

theorem probeHappens_congr {r : APIRouter} {now : Int} {s1 s2 : Store} {n : String}
    (h : s1.failed n = s2.failed n) :
    probeHappens r now s1 n = probeHappens r now s2 n := by
  unfold probeHappens
  rw [should_retry_congr h]

end APIRouter

end WeatherRouting

/-! ### Selection-pass lemmas -/

namespace WeatherRouting

namespace APIRouter

theorem try_recovery_frame (r : APIRouter) (now : Int) (s : Store) (a : String) :
    (_try_recovery r now s a).2.1.routing = s.routing ∧
    (_try_recovery r now s a).2.1.health = s.health ∧
    (_try_recovery r now s a).2.1.metricsSuccess = s.metricsSuccess ∧
    (_try_recovery r now s a).2.1.metricsFailure = s.metricsFailure := by
  unfold _try_recovery
  cases hg : dictGet r.provider_map a with
  | none => simp
  | some p =>
    cases hh : p.health with
    | ok b => cases b <;> simp [hh, _clear_failed_timestamp, _mark_provider_failed]
    | exn m => simp [hh, _mark_provider_failed]

theorem try_recovery_failed_ne (r : APIRouter) (now : Int) (s : Store) (a n : String)
    (h : n ≠ a) : (_try_recovery r now s a).2.1.failed n = s.failed n := by
  unfold _try_recovery
  cases hg : dictGet r.provider_map a with
  | none => simp
  | some p =>
    cases hh : p.health with
    | ok b => cases b <;> simp [hh, _clear_failed_timestamp, _mark_provider_failed, h]
    | exn m => simp [hh, _mark_provider_failed, h]

theorem try_recovery_eq_of_none (r : APIRouter) (now : Int) (s : Store) (a : String)
    (hg : dictGet r.provider_map a = none) :
    _try_recovery r now s a = (false, s, []) := by
  unfold _try_recovery
  rw [hg]

theorem try_recovery_eq_of_ok (r : APIRouter) (now : Int) (s : Store) (a : String)
    (p : Provider) (hg : dictGet r.provider_map a = some p) (hh : p.health = .ok true) :
    _try_recovery r now s a = (true, _clear_failed_timestamp s a, [.probe a]) := by
  unfold _try_recovery
  simp only [hg, hh]

theorem try_recovery_eq_of_bad (r : APIRouter) (now : Int) (s : Store) (a : String)
    (p : Provider) (hg : dictGet r.provider_map a = some p) (hne : p.health ≠ .ok true) :
    _try_recovery r now s a = (false, _mark_provider_failed now s a, [.probe a]) := by
  unfold _try_recovery
  simp only [hg]
  cases hh : p.health with
  | ok b =>
    cases b
    · simp [hh]
    · exact absurd hh hne
  | exn m => simp [hh]

theorem mark_failed_ne {now : Int} {s : Store} {a n : String} (h : n ≠ a) :
    (_mark_provider_failed now s a).failed n = s.failed n := by
  simp [_mark_provider_failed, h]

theorem clear_failed_ne {s : Store} {a n : String} (h : n ≠ a) :
    (_clear_failed_timestamp s a).failed n = s.failed n := by
  simp [_clear_failed_timestamp, h]

theorem is_failed_false_iff (s : Store) (n : String) :
    _is_provider_failed s n = false ↔ s.failed n = none := by
  unfold _is_provider_failed _get_last_failed_timestamp
  cases s.failed n <;> simp

theorem eligibleNow_of_none {r : APIRouter} {now : Int} {s : Store} {n : String}
    (h : s.failed n = none) : eligibleNow r now s n = true := by
  unfold eligibleNow
  rw [h]

theorem eligibleNow_of_cooldown {r : APIRouter} {now t : Int} {s : Store} {n : String}
    (h : s.failed n = some t) (hlt : ¬ RETRY_INTERVAL_SECONDS ≤ now - t) :
    eligibleNow r now s n = false := by
  unfold eligibleNow
  rw [h]
  simp [hlt]

theorem eligibleNow_of_retry {r : APIRouter} {now t : Int} {s : Store} {n : String}
    {p : Provider} (h : s.failed n = some t) (hle : RETRY_INTERVAL_SECONDS ≤ now - t)
    (hg : dictGet r.provider_map n = some p) :
    eligibleNow r now s n = (p.health == .ok true) := by
  unfold eligibleNow
  simp only [h, hle, if_true, hg]

theorem eligibleNow_of_retry_none {r : APIRouter} {now t : Int} {s : Store} {n : String}
    (h : s.failed n = some t) (hle : RETRY_INTERVAL_SECONDS ≤ now - t)
    (hg : dictGet r.provider_map n = none) :
    eligibleNow r now s n = false := by
  unfold eligibleNow
  simp only [h, hle, if_true, hg]

theorem postFailed_of_noretry {r : APIRouter} {now : Int} {s : Store} {n : String}
    (h : _should_retry_provider now s n = false) :
    postFailed r now s n = s.failed n := by
  simp [postFailed, h]

theorem postFailed_of_retry_none {r : APIRouter} {now : Int} {s : Store} {n : String}
    (h : _should_retry_provider now s n = true) (hg : dictGet r.provider_map n = none) :
    postFailed r now s n = s.failed n := by
  simp [postFailed, h, hg]

theorem postFailed_of_retry_ok {r : APIRouter} {now : Int} {s : Store} {n : String}
    {p : Provider} (h : _should_retry_provider now s n = true)
    (hg : dictGet r.provider_map n = some p) (hh : p.health = .ok true) :
    postFailed r now s n = none := by
  simp [postFailed, h, hg, hh]

theorem postFailed_of_retry_bad {r : APIRouter} {now : Int} {s : Store} {n : String}
    {p : Provider} (h : _should_retry_provider now s n = true)
    (hg : dictGet r.provider_map n = some p) (hne : p.health ≠ .ok true) :
    postFailed r now s n = some now := by
  simp only [postFailed, h, if_true, hg]

theorem selectLoop_frame (r : APIRouter) (now : Int) (names : List String) :
    ∀ s : Store,
      (selectLoop r now names s).2.1.routing = s.routing ∧
      (selectLoop r now names s).2.1.health = s.health ∧
      (selectLoop r now names s).2.1.metricsSuccess = s.metricsSuccess ∧
      (selectLoop r now names s).2.1.metricsFailure = s.metricsFailure := by
  induction names with
  | nil => intro s; simp [selectLoop]
  | cons a rest ih =>
    intro s
    by_cases h1 : _should_retry_provider now s a
    · obtain ⟨e1, e2, e3, e4⟩ := try_recovery_frame r now s a
      obtain ⟨f1, f2, f3, f4⟩ := ih (_try_recovery r now s a).2.1
      simp only [selectLoop, h1, if_true]
      exact ⟨f1.trans e1, f2.trans e2, f3.trans e3, f4.trans e4⟩
    · by_cases h2 : _is_provider_failed s a
      · simpa only [selectLoop, h1, h2, Bool.false_eq_true, if_false, if_true] using ih s
      · simpa only [selectLoop, h1, h2, Bool.false_eq_true, if_false] using ih s

/-- Full characterisation of one selection pass over `names` (distinct, as
`provider_map` keys are): the available list is the declarative eligible
filter, each failure-mark entry is described pointwise by `postFailed`, and
the call trace is exactly one probe per provider whose cooldown elapsed. -/
theorem selectLoop_spec (r : APIRouter) (now : Int) (names : List String) :
    ∀ s : Store, names.Nodup →
      (selectLoop r now names s).1 = names.filter (eligibleNow r now s) ∧
      (∀ n, (selectLoop r now names s).2.1.failed n =
        if n ∈ names then postFailed r now s n else s.failed n) ∧
      (selectLoop r now names s).2.2 =
        (names.filter (probeHappens r now s)).map Event.probe := by
  induction names with
  | nil => intro s _; simp [selectLoop]
  | cons a rest ih =>
    intro s hnd
    obtain ⟨ha, hrest⟩ := List.nodup_cons.mp hnd
    by_cases h1 : _should_retry_provider now s a
    · obtain ⟨t, hft, hle⟩ := (should_retry_iff now s a).mp h1
      cases hg : dictGet r.provider_map a with
      | none =>
        have hstep := try_recovery_eq_of_none r now s a hg
        have helig := eligibleNow_of_retry_none (r := r) hft hle hg
        have hpH : probeHappens r now s a = false := by simp [probeHappens, hg]
        have hpost := postFailed_of_retry_none (r := r) h1 hg
        obtain ⟨ih1, ih2, ih3⟩ := ih s hrest
        simp only [selectLoop, h1, if_true, hstep, Bool.false_eq_true, if_false]
        refine ⟨?_, ?_, ?_⟩
        · rw [ih1, List.filter_cons]
          simp [helig]
        · intro n
          rw [ih2 n]
          by_cases hna : n = a
          · subst hna
            simp [ha, hpost]
          · simp [List.mem_cons, hna]
        · rw [ih3, List.filter_cons]
          simp [hpH]
      | some p =>
        have hpH : probeHappens r now s a = true := by
          simp [probeHappens, h1, hg]
        by_cases hh : p.health = .ok true
        · have hstep := try_recovery_eq_of_ok r now s a p hg hh
          have helig : eligibleNow r now s a = true := by
            rw [eligibleNow_of_retry hft hle hg, hh]
            rfl
          have hpost := postFailed_of_retry_ok (r := r) h1 hg hh
          have hfe : ∀ n ∈ rest, (_clear_failed_timestamp s a).failed n = s.failed n :=
            fun n hn => clear_failed_ne (fun he => ha (he ▸ hn))
          obtain ⟨ih1, ih2, ih3⟩ := ih (_clear_failed_timestamp s a) hrest
          simp only [selectLoop, h1, if_true, hstep, eq_self_iff_true]
          refine ⟨?_, ?_, ?_⟩
          · rw [List.filter_cons]
            simp only [helig, if_true, eq_self_iff_true]
            rw [ih1]
            exact congrArg (List.cons a)
              (List.filter_congr fun n hn => eligibleNow_congr (hfe n hn))
          · intro n
            rw [ih2 n]
            by_cases hna : n = a
            · subst hna
              simp [ha, hpost, _clear_failed_timestamp]
            · have hcf := clear_failed_ne (s := s) (a := a) hna
              by_cases hnr : n ∈ rest
              · simp only [hnr, if_true, List.mem_cons, hna, false_or]
                exact postFailed_congr (hfe n hnr)
              · simp only [hnr, if_false, List.mem_cons, hna, false_or]
                exact hcf
          · rw [ih3, List.filter_cons]
            simp only [hpH, if_true, eq_self_iff_true, List.map_cons, List.singleton_append]
            exact congrArg (List.cons (Event.probe a))
              (congrArg (List.map Event.probe)
                (List.filter_congr fun n hn => probeHappens_congr (hfe n hn)))
        · have hstep := try_recovery_eq_of_bad r now s a p hg hh
          have helig : eligibleNow r now s a = false := by
            rw [eligibleNow_of_retry hft hle hg]
            simp [hh]
          have hpost := postFailed_of_retry_bad (r := r) h1 hg hh
          have hfe : ∀ n ∈ rest, (_mark_provider_failed now s a).failed n = s.failed n :=
            fun n hn => mark_failed_ne (fun he => ha (he ▸ hn))
          obtain ⟨ih1, ih2, ih3⟩ := ih (_mark_provider_failed now s a) hrest
          simp only [selectLoop, h1, if_true, hstep, Bool.false_eq_true, if_false]
          refine ⟨?_, ?_, ?_⟩
          · rw [List.filter_cons]
            simp only [helig, Bool.false_eq_true, if_false]
            rw [ih1]
            exact List.filter_congr fun n hn => eligibleNow_congr (hfe n hn)
          · intro n
            rw [ih2 n]
            by_cases hna : n = a
            · subst hna
              simp [ha, hpost, _mark_provider_failed]
            · have hcf : (_mark_provider_failed now s a).failed n = s.failed n := mark_failed_ne hna
              by_cases hnr : n ∈ rest
              · simp only [hnr, if_true, List.mem_cons, hna, false_or]
                exact postFailed_congr (hfe n hnr)
              · simp only [hnr, if_false, List.mem_cons, hna, false_or]
                exact hcf
          · rw [ih3, List.filter_cons]
            simp only [hpH, if_true, eq_self_iff_true, List.map_cons, List.singleton_append]
            exact congrArg (List.cons (Event.probe a))
              (congrArg (List.map Event.probe)
                (List.filter_congr fun n hn => probeHappens_congr (hfe n hn)))
    · rw [Bool.not_eq_true] at h1
      have hpH : probeHappens r now s a = false := by simp [probeHappens, h1]
      have hpost := postFailed_of_noretry (r := r) h1
      by_cases h2 : _is_provider_failed s a
      · have helig : eligibleNow r now s a = false := by
          obtain ⟨t, hft⟩ : ∃ t, s.failed a = some t := by
            simpa [_is_provider_failed, _get_last_failed_timestamp,
              Option.isSome_iff_exists] using h2
          refine eligibleNow_of_cooldown hft ?_
          intro hc
          have hcontra := (should_retry_iff now s a).mpr ⟨t, hft, hc⟩
          rw [h1] at hcontra
          exact Bool.false_ne_true hcontra
        obtain ⟨ih1, ih2, ih3⟩ := ih s hrest
        simp only [selectLoop, h1, Bool.false_eq_true, if_false, h2, if_true]
        refine ⟨?_, ?_, ?_⟩
        · rw [ih1, List.filter_cons]
          simp [helig]
        · intro n
          rw [ih2 n]
          by_cases hna : n = a
          · subst hna
            simp [ha, hpost]
          · simp [List.mem_cons, hna]
        · rw [ih3, List.filter_cons]
          simp [hpH]
      · rw [Bool.not_eq_true] at h2
        have hfn : s.failed a = none := (is_failed_false_iff s a).mp h2
        have helig : eligibleNow r now s a = true := eligibleNow_of_none hfn
        obtain ⟨ih1, ih2, ih3⟩ := ih s hrest
        simp only [selectLoop, h1, Bool.false_eq_true, if_false, h2]
        refine ⟨?_, ?_, ?_⟩
        · rw [ih1, List.filter_cons]
          simp [helig]
        · intro n
          rw [ih2 n]
          by_cases hna : n = a
          · subst hna
            simp [ha, hpost]
          · simp [List.mem_cons, hna]
        · rw [ih3, List.filter_cons]
          simp [hpH]

theorem probe_injective : Function.Injective Event.probe := by
  intro x y hxy
  injection hxy

/-- Probe-count corollary: each provider is probed at most once per selection
pass, exactly when its cooldown elapsed and it resolves in the registry. -/
theorem selectLoop_probe_count (r : APIRouter) (now : Int) (names : List String)
    (s : Store) (n : String) (hnd : names.Nodup) :
    ((selectLoop r now names s).2.2).count (.probe n) =
      if n ∈ names ∧ probeHappens r now s n = true then 1 else 0 := by
  obtain ⟨-, -, h3⟩ := selectLoop_spec r now names s hnd
  rw [h3, List.count_map_of_injective _ _ probe_injective]
  by_cases hp : probeHappens r now s n = true
  · rw [List.count_filter hp]
    by_cases hm : n ∈ names
    · rw [List.count_eq_one_of_mem hnd hm]
      simp [hm, hp]
    · rw [List.count_eq_zero.mpr hm]
      simp [hm]
  · have : n ∉ names.filter (probeHappens r now s) := by
      intro hmem
      exact hp (List.mem_filter.mp hmem).2
    rw [List.count_eq_zero.mpr this]
    simp [hp]

theorem selectLoop_no_fetch (r : APIRouter) (now : Int) (names : List String)
    (s : Store) (m : String) (hnd : names.Nodup) :
    Event.fetch m ∉ (selectLoop r now names s).2.2 := by
  obtain ⟨-, -, h3⟩ := selectLoop_spec r now names s hnd
  rw [h3]
  intro hmem
  obtain ⟨x, -, hx⟩ := List.mem_map.mp hmem
  exact Event.noConfusion hx

/-- `_select_provider` returns the same store and trace as its loop. -/
theorem select_provider_store_trace (r : APIRouter) (now : Int) (s : Store) :
    (_select_provider r now s).2.1 = (selectLoop r now (dictKeys r.provider_map) s).2.1 ∧
    (_select_provider r now s).2.2 = (selectLoop r now (dictKeys r.provider_map) s).2.2 := by
  unfold _select_provider
  cases hq : (selectLoop r now (dictKeys r.provider_map) s).1 with
  | nil => simp [hq]
  | cons a l =>
    by_cases hc : "scraping" = a ∨ "scraping" ∈ l <;> simp [hq, hc]

/-- The name `_select_provider` returns, phrased through the declarative
eligible set: the hardcoded default on an empty set, otherwise "scraping"
when eligible, otherwise the first eligible provider in registry order. -/
theorem select_provider_name (r : APIRouter) (now : Int) (s : Store) :
    (_select_provider r now s).1 =
      if eligibleProviders r now s = [] then "scraping"
      else if "scraping" ∈ eligibleProviders r now s then "scraping"
      else (eligibleProviders r now s).headD "scraping" := by
  have havail : (selectLoop r now (dictKeys r.provider_map) s).1 =
      eligibleProviders r now s :=
    (selectLoop_spec r now (dictKeys r.provider_map) s (provider_map_keys_nodup r)).1
  unfold _select_provider
  simp only [havail]
  cases hE : eligibleProviders r now s with
  | nil => simp
  | cons a l =>
    by_cases hm : "scraping" = a ∨ "scraping" ∈ l <;> simp [hm, List.mem_cons]

/-! ### Fallback-call lemmas -/

theorem fallbackLoop_no_probe (r : APIRouter) (now : Int) (names : List String) :
    ∀ (s : Store) (m : String), Event.probe m ∉ (fallbackLoop r now names s).2.2 := by
  induction names with
  | nil => intro s m; simp [fallbackLoop]
  | cons a rest ih =>
    intro s m
    unfold fallbackLoop
    cases hg : dictGet r.provider_map a with
    | none => exact ih _ m
    | some p =>
      cases hf : p.fetch with
      | ok resp => simp [hf]
      | exn e =>
        simp only [hf, List.mem_cons]
        rintro (hc | hc)
        · exact Event.noConfusion hc
        · exact ih _ m hc

theorem fallbackLoop_fail (r : APIRouter) (now : Int) (names : List String) :
    ∀ s : Store, names.Nodup →
      (∀ n ∈ names, ∀ q, dictGet r.provider_map n = some q → ∃ msg, q.fetch = .exn msg) →
      (fallbackLoop r now names s).1 = .error "All providers failed" ∧
      (∀ n, ((fallbackLoop r now names s).2.1).failed n =
        if n ∈ names then some now else s.failed n) ∧
      (∀ n, ((fallbackLoop r now names s).2.1).metricsFailure n =
        if n ∈ names then incrCounter (s.metricsFailure n) else s.metricsFailure n) ∧
      ((fallbackLoop r now names s).2.1).routing = s.routing ∧
      ((fallbackLoop r now names s).2.1).metricsSuccess = s.metricsSuccess ∧
      ((fallbackLoop r now names s).2.1).health = s.health := by
  induction names with
  | nil => intro s _ _; simp [fallbackLoop]
  | cons a rest ih =>
    intro s hnd hall
    obtain ⟨ha, hrest⟩ := List.nodup_cons.mp hnd
    have hallRest : ∀ n ∈ rest, ∀ q, dictGet r.provider_map n = some q →
        ∃ msg, q.fetch = .exn msg :=
      fun n hn => hall n (List.mem_cons_of_mem _ hn)
    have hstore : ∀ n,
        (_mark_provider_failed now (_increment_failure_metric s a) a).failed n =
          if n = a then some now else s.failed n := by
      intro n
      simp [_mark_provider_failed, _increment_failure_metric]
    have hmet : ∀ n,
        (_mark_provider_failed now (_increment_failure_metric s a) a).metricsFailure n =
          if n = a then incrCounter (s.metricsFailure n) else s.metricsFailure n := by
      intro n
      simp [_mark_provider_failed, _increment_failure_metric]
    have step :
        ∀ s1 : Store,
          (∀ n, s1.failed n = if n = a then some now else s.failed n) →
          (∀ n, s1.metricsFailure n =
            if n = a then incrCounter (s.metricsFailure n) else s.metricsFailure n) →
          s1.routing = s.routing → s1.metricsSuccess = s.metricsSuccess →
          s1.health = s.health →
          (fallbackLoop r now rest s1).1 = .error "All providers failed" ∧
          (∀ n, ((fallbackLoop r now rest s1).2.1).failed n =
            if n ∈ a :: rest then some now else s.failed n) ∧
          (∀ n, ((fallbackLoop r now rest s1).2.1).metricsFailure n =
            if n ∈ a :: rest then incrCounter (s.metricsFailure n) else s.metricsFailure n) ∧
          ((fallbackLoop r now rest s1).2.1).routing = s.routing ∧
          ((fallbackLoop r now rest s1).2.1).metricsSuccess = s.metricsSuccess ∧
          ((fallbackLoop r now rest s1).2.1).health = s.health := by
      intro s1 hf1 hm1 hr1 hs1 hh1
      obtain ⟨i1, i2, i3, i4, i5, i6⟩ := ih s1 hrest hallRest
      refine ⟨i1, ?_, ?_, i4.trans hr1, i5.trans hs1, i6.trans hh1⟩
      · intro n
        rw [i2 n, hf1 n]
        by_cases hna : n = a
        · subst hna
          simp [ha]
        · simp [List.mem_cons, hna]
      · intro n
        rw [i3 n, hm1 n]
        by_cases hna : n = a
        · subst hna
          simp [ha]
        · by_cases hnr : n ∈ rest
          · simp [List.mem_cons, hna, hnr]
          · simp [List.mem_cons, hna, hnr]
    cases hg : dictGet r.provider_map a with
    | none =>
      have hred : fallbackLoop r now (a :: rest) s =
          fallbackLoop r now rest
            (_mark_provider_failed now (_increment_failure_metric s a) a) := by
        simp only [fallbackLoop, hg]
      rw [hred]
      exact step _ hstore hmet rfl rfl rfl
    | some p =>
      obtain ⟨msg, hf⟩ := hall a (List.mem_cons_self a rest) p hg
      have hred : fallbackLoop r now (a :: rest) s =
          ((fallbackLoop r now rest
              (_mark_provider_failed now (_increment_failure_metric s a) a)).1,
           (fallbackLoop r now rest
              (_mark_provider_failed now (_increment_failure_metric s a) a)).2.1,
           .fetch a :: (fallbackLoop r now rest
              (_mark_provider_failed now (_increment_failure_metric s a) a)).2.2) := by
        simp only [fallbackLoop, hg, hf]
      rw [hred]
      exact step _ hstore hmet rfl rfl rfl

theorem fallbackLoop_ok (r : APIRouter) (now : Int) (names : List String) :
    ∀ (s : Store) (resp : WeatherForecastResponseSchema),
      (fallbackLoop r now names s).1 = .ok resp →
      ∃ w q, w ∈ names ∧ dictGet r.provider_map w = some q ∧ q.fetch = .ok resp ∧
        ((fallbackLoop r now names s).2.1).routing = some w ∧
        ((fallbackLoop r now names s).2.1).failed w = none ∧
        ((fallbackLoop r now names s).2.1).metricsSuccess w =
          incrCounter (s.metricsSuccess w) ∧
        ((fallbackLoop r now names s).2.1).health = s.health := by
  induction names with
  | nil => intro s resp h; simp [fallbackLoop] at h
  | cons a rest ih =>
    intro s resp h
    cases hg : dictGet r.provider_map a with
    | none =>
      have hred : fallbackLoop r now (a :: rest) s =
          fallbackLoop r now rest
            (_mark_provider_failed now (_increment_failure_metric s a) a) := by
        simp only [fallbackLoop, hg]
      rw [hred] at h ⊢
      obtain ⟨w, q, hw, hq, hf, hrout, hfail, hms, hh⟩ := ih _ resp h
      exact ⟨w, q, List.mem_cons_of_mem _ hw, hq, hf, hrout, hfail, hms, hh⟩
    | some p =>
      cases hf : p.fetch with
      | ok resp0 =>
        have hred : fallbackLoop r now (a :: rest) s =
            (.ok resp0,
             _clear_failed_timestamp
               (_increment_success_metric (_set_cached_routing s a) a) a,
             [.fetch a]) := by
          simp only [fallbackLoop, hg, hf]
        rw [hred] at h ⊢
        simp only [Except.ok.injEq] at h
        subst h
        refine ⟨a, p, List.mem_cons_self a rest, hg, hf, ?_, ?_, ?_, rfl⟩
        · simp [_clear_failed_timestamp, _increment_success_metric, _set_cached_routing]
        · simp [_clear_failed_timestamp]
        · simp [_clear_failed_timestamp, _increment_success_metric, _set_cached_routing]
      | exn e =>
        have hred : fallbackLoop r now (a :: rest) s =
            ((fallbackLoop r now rest
                (_mark_provider_failed now (_increment_failure_metric s a) a)).1,
             (fallbackLoop r now rest
                (_mark_provider_failed now (_increment_failure_metric s a) a)).2.1,
             .fetch a :: (fallbackLoop r now rest
                (_mark_provider_failed now (_increment_failure_metric s a) a)).2.2) := by
          simp only [fallbackLoop, hg, hf]
        rw [hred] at h ⊢
        obtain ⟨w, q, hw, hq, hfq, hrout, hfail, hms, hh⟩ := ih _ resp h
        exact ⟨w, q, List.mem_cons_of_mem _ hw, hq, hfq, hrout, hfail, hms, hh⟩

theorem call_with_fallback_not_found (r : APIRouter) (now : Int) (primary : String)
    (s : Store) (hg : dictGet r.provider_map primary = none) :
    _call_with_fallback r now primary s =
      (.error ("Provider not found: " ++ primary), s, []) := by
  simp only [_call_with_fallback, hg]

theorem call_with_fallback_no_probe (r : APIRouter) (now : Int) (primary : String)
    (s : Store) (m : String) :
    Event.probe m ∉ (_call_with_fallback r now primary s).2.2 := by
  unfold _call_with_fallback
  cases hg : dictGet r.provider_map primary with
  | none => simp
  | some p =>
    cases hf : p.fetch with
    | ok resp => simp [hf]
    | exn e =>
      by_cases hemp :
          ((dictKeys r.provider_map).filter (fun n => n != primary)).isEmpty
      · simp [hf, hemp]
      · rw [Bool.not_eq_true] at hemp
        simp only [hf, hemp, Bool.false_eq_true, if_false, List.mem_cons]
        rintro (hc | hc)
        · exact Event.noConfusion hc
        · exact fallbackLoop_no_probe r now _ _ m hc

theorem call_with_fallback_ok (r : APIRouter) (now : Int) (primary : String)
    (s : Store) (resp : WeatherForecastResponseSchema)
    (h : (_call_with_fallback r now primary s).1 = .ok resp) :
    ∃ w q, dictGet r.provider_map w = some q ∧ q.fetch = .ok resp ∧
      ((_call_with_fallback r now primary s).2.1).routing = some w ∧
      ((_call_with_fallback r now primary s).2.1).failed w = none ∧
      ((_call_with_fallback r now primary s).2.1).metricsSuccess w =
        incrCounter (s.metricsSuccess w) ∧
      ((_call_with_fallback r now primary s).2.1).health = s.health := by
  unfold _call_with_fallback at h ⊢
  cases hg : dictGet r.provider_map primary with
  | none => simp [hg] at h
  | some p =>
    simp only [hg] at h ⊢
    cases hf : p.fetch with
    | ok resp0 =>
      simp only [hf, Except.ok.injEq] at h
      subst h
      refine ⟨primary, p, hg, hf, ?_, ?_, ?_, ?_⟩ <;>
        simp [hf, _clear_failed_timestamp, _increment_success_metric, _set_cached_routing]
    | exn e =>
      by_cases hemp :
          ((dictKeys r.provider_map).filter (fun n => n != primary)).isEmpty
      · simp [hf, hemp] at h
      · rw [Bool.not_eq_true] at hemp
        simp only [hf, hemp, Bool.false_eq_true, if_false] at h ⊢
        obtain ⟨w, q, hw, hq, hfq, hrout, hfail, hms, hh⟩ := fallbackLoop_ok r now _ _ resp h
        refine ⟨w, q, hq, hfq, hrout, hfail, ?_, hh⟩
        rw [hms]
        rfl

/-- When the primary resolves but its fetch and every other registered
provider's fetch raise, the dispatcher surfaces an error and every
registered provider ends marked failed with its failure metric bumped. -/
theorem call_with_fallback_fail (r : APIRouter) (now : Int) (primary : String)
    (s : Store) (p : Provider) (e : String)
    (hp : dictGet r.provider_map primary = some p) (hpf : p.fetch = .exn e)
    (hall : ∀ n q, dictGet r.provider_map n = some q → ∃ msg, q.fetch = .exn msg) :
    (∃ msg, (_call_with_fallback r now primary s).1 = .error msg) ∧
    (∀ n, n ∈ dictKeys r.provider_map →
      ((_call_with_fallback r now primary s).2.1).failed n = some now ∧
      ((_call_with_fallback r now primary s).2.1).metricsFailure n =
        incrCounter (s.metricsFailure n)) := by
  have hs2fail : ∀ n,
      (_mark_provider_failed now (_increment_failure_metric s primary) primary).failed n =
        if n = primary then some now else s.failed n := by
    intro n
    simp [_mark_provider_failed, _increment_failure_metric]
  have hs2met : ∀ n,
      (_mark_provider_failed now (_increment_failure_metric s primary) primary).metricsFailure n =
        if n = primary then incrCounter (s.metricsFailure n) else s.metricsFailure n := by
    intro n
    simp [_mark_provider_failed, _increment_failure_metric]
  unfold _call_with_fallback
  by_cases hemp :
      ((dictKeys r.provider_map).filter (fun n => n != primary)).isEmpty
  · simp only [hp, hpf, hemp, eq_self_iff_true, if_true]
    refine ⟨⟨_, rfl⟩, ?_⟩
    intro n hn
    have hn_primary : n = primary := by
      by_contra hne
      have : n ∈ (dictKeys r.provider_map).filter (fun n => n != primary) :=
        List.mem_filter.mpr ⟨hn, bne_iff_ne.mpr hne⟩
      rw [List.isEmpty_iff.mp hemp] at this
      exact List.not_mem_nil n this
    subst hn_primary
    rw [hs2fail n, hs2met n]
    simp
  · have hnodup : ((dictKeys r.provider_map).filter (fun n => n != primary)).Nodup :=
      (provider_map_keys_nodup r).filter _
    have hallF : ∀ n ∈ (dictKeys r.provider_map).filter (fun n => n != primary),
        ∀ q, dictGet r.provider_map n = some q → ∃ msg, q.fetch = .exn msg :=
      fun n _ => hall n
    obtain ⟨l1, l2, l3, -, -, -⟩ :=
      fallbackLoop_fail r now ((dictKeys r.provider_map).filter (fun n => n != primary))
        (_mark_provider_failed now (_increment_failure_metric s primary) primary)
        hnodup hallF
    rw [Bool.not_eq_true] at hemp
    simp only [hp, hpf, hemp, Bool.false_eq_true, if_false]
    refine ⟨⟨_, l1⟩, ?_⟩
    intro n hn
    by_cases hne : n = primary
    · subst hne
      have hnotmem : n ∉ (dictKeys r.provider_map).filter (fun m => m != n) := by
        intro hmem
        have := (List.mem_filter.mp hmem).2
        simp at this
      constructor
      · rw [l2 n, if_neg hnotmem, hs2fail n]
        simp
      · rw [l3 n, if_neg hnotmem, hs2met n]
        simp
    · have hmem : n ∈ (dictKeys r.provider_map).filter (fun m => m != primary) :=
        List.mem_filter.mpr ⟨hn, bne_iff_ne.mpr hne⟩
      constructor
      · rw [l2 n, if_pos hmem]
      · rw [l3 n, if_pos hmem, hs2met n, if_neg hne]

end APIRouter

/-! ## Claim theorems -/

open APIRouter

/-- C1 (code bug evaluation): in `HealthChecker.check_all_providers`,
`_check_provider` overwrites the stored HealthRecord with "healthy" before
`_check_and_handle_recovery` reads the "previous" status, so a provider whose
stored status was "unhealthy" and whose probe now succeeds is never detected
as recovered: the sweep deletes no routing assignment and emits no
pattern-deletion, contradicting the claim (and the repository's own
`test_recovery_detection`). -/
theorem C1_sweep_never_invalidates_routing :
    HealthChecker._get_previous_health_status sweepStore "scraping" = "unhealthy" ∧
    scrapingUp.health = .ok true ∧
    (HealthChecker.check_all_providers sweepChecker 50 sweepStore).1 =
      [("scraping", true), ("external", true)] ∧
    (HealthChecker.check_all_providers sweepChecker 50 sweepStore).2.1.routing =
      some "external" ∧
    Event.clearRoutingPattern ∉
      (HealthChecker.check_all_providers sweepChecker 50 sweepStore).2.2 := by
  decide

/-- C2 (counterexample): `_select_provider` ignores `cost_per_request`.
With a 0.01-cost provider listed before a 0-cost provider named "zerocost"
(both eligible), it returns the 0.01-cost one; and with two equal-cost
eligible providers, "alpha" first and "scraping" second, it returns
"scraping", not the first in registry order. -/
theorem C2_counterexample :
    (eligibleProviders paidFirstRouter 0 emptyStore = ["external", "zerocost"] ∧
      (_select_provider paidFirstRouter 0 emptyStore).1 = "external" ∧
      (dictGet paidFirstRouter.provider_map "external").map Provider.cost_per_request ≠
        some 0 ∧
      (dictGet paidFirstRouter.provider_map "zerocost").map Provider.cost_per_request =
        some 0) ∧
    (eligibleProviders equalCostRouter 0 emptyStore = ["alpha", "scraping"] ∧
      (_select_provider equalCostRouter 0 emptyStore).1 = "scraping" ∧
      (dictGet equalCostRouter.provider_map "alpha").map Provider.cost_per_request =
        (dictGet equalCostRouter.provider_map "scraping").map Provider.cost_per_request) := by
  decide

/-- C2 (amended): whenever the eligible set is nonempty, the selection pass
returns the provider named "scraping" if it is eligible (regardless of cost)
and otherwise the first eligible provider in registry order; with the default
registry this picks the zero-cost "scraping" provider, matching Scenario A. -/
theorem C2_amended_selection_rule (r : APIRouter) (now : Int) (s : Store)
    (h : eligibleProviders r now s ≠ []) :
    (_select_provider r now s).1 =
      if "scraping" ∈ eligibleProviders r now s then "scraping"
      else (eligibleProviders r now s).head h := by
  rw [select_provider_name, if_neg h]
  by_cases hm : "scraping" ∈ eligibleProviders r now s
  · simp [hm]
  · simp only [hm, if_false]
    obtain ⟨a, l, hE⟩ : ∃ a l, eligibleProviders r now s = a :: l := by
      cases hE : eligibleProviders r now s with
      | nil => exact absurd hE h
      | cons a l => exact ⟨a, l, rfl⟩
    revert h
    rw [hE]
    intro h
    rfl

/-- Witness for C2 (amended) at the default registry with an empty store:
both providers are eligible, "scraping" is among them, the selection pass
picks it, and it is the zero-cost provider (the paid one costs 0.01). -/
theorem C2_amended_witness :
    eligibleProviders defaultRouter 0 emptyStore ≠ [] ∧
    "scraping" ∈ eligibleProviders defaultRouter 0 emptyStore ∧
    (_select_provider defaultRouter 0 emptyStore).1 = "scraping" ∧
    (dictGet defaultRouter.provider_map "scraping").map Provider.cost_per_request =
      some 0 ∧
    (dictGet defaultRouter.provider_map "external").map Provider.cost_per_request =
      some (mkRat 1 100) :=
  ⟨by decide, by decide,
    (C2_amended_selection_rule defaultRouter 0 emptyStore (by decide)).trans (by decide),
    by decide, by decide⟩

/-- C7: when the eligible set of the selection pass is empty, the hardcoded
default provider name "scraping" is returned rather than refusing service,
and "scraping" is the zero-cost provider. -/
theorem C7_default_provider (r : APIRouter) (now : Int) (s : Store)
    (h : eligibleProviders r now s = []) :
    (_select_provider r now s).1 = "scraping" ∧
    ScrapingWeatherProvider.cost_per_request = 0 := by
  constructor
  · rw [select_provider_name, if_pos h]
  · rfl

/-- Witness for C7: with both default providers failed 10 seconds ago
(cooldown not elapsed), no provider is eligible and selection still returns
"scraping". -/
theorem C7_default_provider_witness :
    eligibleProviders defaultRouter 110 cooldownStore = [] ∧
    (_select_provider defaultRouter 110 cooldownStore).1 = "scraping" ∧
    ScrapingWeatherProvider.cost_per_request = 0 :=
  ⟨by decide, (C7_default_provider defaultRouter 110 cooldownStore (by decide)).1,
    (C7_default_provider defaultRouter 110 cooldownStore (by decide)).2⟩

/-- C8: both providers' `health_check` is a total boolean function of the
underlying HTTP call (the catch-all `except` handler makes raising
impossible); it returns true exactly when the request returns status 200, and
false when the request raises or returns any other status. -/
theorem C8_probe_total (http : HttpOutcome) :
    (ScrapingWeatherProvider.health_check http = true ↔ http = .response 200) ∧
    (ExternalWeatherProvider.health_check http = true ↔ http = .response 200) := by
  cases http with
  | response status =>
    simp [ScrapingWeatherProvider.health_check, ScrapingWeatherProvider.healthCheckBody,
      ExternalWeatherProvider.health_check, ExternalWeatherProvider.healthCheckBody,
      requestsGetHealth, Except.map]
  | exn m =>
    simp [ScrapingWeatherProvider.health_check, ScrapingWeatherProvider.healthCheckBody,
      ExternalWeatherProvider.health_check, ExternalWeatherProvider.healthCheckBody,
      requestsGetHealth, Except.map]

/-- C3: the per-provider lazy-recovery state machine.  For a registered
provider `n` with a FailureMark stamped at `t`: a selection pass before the
retry interval elapses neither treats it as eligible nor probes it; once the
interval has elapsed the pass probes it exactly once and then either clears
its FailureMark and treats it as eligible (probe returns true) or re-stamps
the FailureMark with the current time and treats it as ineligible (probe
returns false or raises). -/
theorem C3_lazy_recovery (r : APIRouter) (now t : Int) (n : String) (p : Provider)
    (s : Store) (hget : dictGet r.provider_map n = some p)
    (hfail : s.failed n = some t) :
    (now - t < RETRY_INTERVAL_SECONDS →
      n ∉ eligibleProviders r now s ∧
      ((_select_provider r now s).2.2).count (.probe n) = 0) ∧
    (RETRY_INTERVAL_SECONDS ≤ now - t →
      ((_select_provider r now s).2.2).count (.probe n) = 1 ∧
      (p.health = .ok true →
        ((_select_provider r now s).2.1).failed n = none ∧
        n ∈ eligibleProviders r now s) ∧
      (p.health ≠ .ok true →
        ((_select_provider r now s).2.1).failed n = some now ∧
        n ∉ eligibleProviders r now s)) := by
  have hkeys := provider_map_keys_nodup r
  have hmem := dictGet_mem_keys hget
  obtain ⟨hst, hev⟩ := select_provider_store_trace r now s
  constructor
  · intro hlt
    have hnle : ¬ RETRY_INTERVAL_SECONDS ≤ now - t := by omega
    have helig : eligibleNow r now s n = false := eligibleNow_of_cooldown hfail hnle
    have hretry : _should_retry_provider now s n = false := by
      rw [Bool.eq_false_iff]
      intro hc
      obtain ⟨t2, hft2, hle2⟩ := (should_retry_iff now s n).mp hc
      rw [hfail] at hft2
      injection hft2 with ht2
      omega
    constructor
    · intro hmemE
      have hmemF : n ∈ (dictKeys r.provider_map).filter (eligibleNow r now s) := hmemE
      have := (List.mem_filter.mp hmemF).2
      rw [helig] at this
      exact Bool.false_ne_true this
    · rw [hev, selectLoop_probe_count r now _ s n hkeys]
      simp [probeHappens, hretry]
  · intro hle
    have hretry : _should_retry_provider now s n = true :=
      (should_retry_iff now s n).mpr ⟨t, hfail, hle⟩
    have hpH : probeHappens r now s n = true := by
      simp [probeHappens, hretry, hget]
    refine ⟨?_, ?_, ?_⟩
    · rw [hev, selectLoop_probe_count r now _ s n hkeys]
      simp [hmem, hpH]
    · intro hh
      have helig : eligibleNow r now s n = true := by
        rw [eligibleNow_of_retry hfail hle hget, hh]
        rfl
      constructor
      · rw [hst, (selectLoop_spec r now _ s hkeys).2.1 n, if_pos hmem,
          postFailed_of_retry_ok hretry hget hh]
      · exact (List.mem_filter.mpr ⟨hmem, helig⟩ :
          n ∈ (dictKeys r.provider_map).filter (eligibleNow r now s))
    · intro hh
      have helig : eligibleNow r now s n = false := by
        rw [eligibleNow_of_retry hfail hle hget]
        simp [hh]
      constructor
      · rw [hst, (selectLoop_spec r now _ s hkeys).2.1 n, if_pos hmem,
          postFailed_of_retry_bad hretry hget hh]
      · intro hmemE
        have hmemF : n ∈ (dictKeys r.provider_map).filter (eligibleNow r now s) := hmemE
        have := (List.mem_filter.mp hmemF).2
        rw [helig] at this
        exact Bool.false_ne_true this

/-- Witness for C3 (Scenario D): "scraping" failed at t=0, queried at t=120
with a 60-second retry interval and a healthy probe: probed exactly once, its
FailureMark is cleared and it becomes eligible. -/
theorem C3_lazy_recovery_witness :
    dictGet defaultRouter.provider_map "scraping" = some scrapingUp ∧
    failedScrapingStore.failed "scraping" = some 0 ∧
    ((_select_provider defaultRouter 120 failedScrapingStore).2.2).count
      (Event.probe "scraping") = 1 ∧
    ((_select_provider defaultRouter 120 failedScrapingStore).2.1).failed "scraping" =
      none ∧
    "scraping" ∈ eligibleProviders defaultRouter 120 failedScrapingStore := by
  have h := C3_lazy_recovery defaultRouter 120 0 "scraping" scrapingUp
    failedScrapingStore (by decide) (by decide)
  exact ⟨by decide, by decide, (h.2 (by decide)).1,
    ((h.2 (by decide)).2.1 (by decide)).1, ((h.2 (by decide)).2.1 (by decide)).2⟩

/-- C4: when the resolved primary's fetch raises and every registered
provider's fetch raises, the dispatcher's call-with-fallback pass surfaces an
error to the caller, and afterwards every registered provider carries a
FailureMark stamped `now` and a failure metric incremented once. -/
theorem C4_all_providers_fail (r : APIRouter) (now : Int) (primary : String)
    (s : Store) (p : Provider) (e : String)
    (hp : dictGet r.provider_map primary = some p) (hpf : p.fetch = .exn e)
    (hall : ∀ n q, dictGet r.provider_map n = some q → ∃ msg, q.fetch = .exn msg) :
    (∃ msg, (_call_with_fallback r now primary s).1 = .error msg) ∧
    (∀ n, n ∈ dictKeys r.provider_map →
      ((_call_with_fallback r now primary s).2.1).failed n = some now ∧
      ((_call_with_fallback r now primary s).2.1).metricsFailure n =
        incrCounter (s.metricsFailure n)) :=
  call_with_fallback_fail r now primary s p e hp hpf hall

/-- Witness for C4 (Scenario C): both default providers' fetches raise; the
call fails and both providers end marked failed with failure metric 1. -/
theorem C4_all_providers_fail_witness :
    dictGet failRouter.provider_map "scraping" = some scrapingDown ∧
    scrapingDown.fetch = .exn "A failed" ∧
    (∃ msg, (_call_with_fallback failRouter 120 "scraping" emptyStore).1 =
      .error msg) ∧
    ((_call_with_fallback failRouter 120 "scraping" emptyStore).2.1).failed
      "scraping" = some 120 ∧
    ((_call_with_fallback failRouter 120 "scraping" emptyStore).2.1).failed
      "external" = some 120 ∧
    ((_call_with_fallback failRouter 120 "scraping" emptyStore).2.1).metricsFailure
      "external" = some 1 := by
  have hall : ∀ n q, dictGet failRouter.provider_map n = some q →
      ∃ msg, q.fetch = .exn msg := by
    intro n q hq
    have hmem : q ∈ failRouter.provider_map.map Prod.snd := dictGet_mem_values hq
    have hmap : failRouter.provider_map.map Prod.snd = [scrapingDown, externalDown] := by
      decide
    rw [hmap] at hmem
    simp only [List.mem_cons, List.not_mem_nil, or_false] at hmem
    rcases hmem with h | h <;> subst h
    · exact ⟨"A failed", rfl⟩
    · exact ⟨"B failed", rfl⟩
  have h := C4_all_providers_fail failRouter 120 "scraping" emptyStore scrapingDown
    "A failed" (by decide) rfl hall
  exact ⟨by decide, rfl, h.1, (h.2 "scraping" (by decide)).1,
    (h.2 "external" (by decide)).1, (h.2 "external" (by decide)).2⟩

/-- C5: whenever `route_request` returns a response, the provider whose fetch
produced it is stored as the routing assignment ("routing:current"), its
FailureMark is absent afterwards, and its success metric was incremented —
whether it succeeded as primary or as a fallback. -/
theorem C5_success_round_trip (r : APIRouter) (u now : Int) (s : Store)
    (resp : WeatherForecastResponseSchema)
    (h : (route_request r u now s).1 = .ok resp) :
    ∃ w q, ((route_request r u now s).2.1).routing = some w ∧
      dictGet r.provider_map w = some q ∧ q.fetch = .ok resp ∧
      ((route_request r u now s).2.1).failed w = none ∧
      ((route_request r u now s).2.1).metricsSuccess w =
        incrCounter (s.metricsSuccess w) := by
  unfold route_request at h ⊢
  simp only [_get_cached_routing] at h ⊢
  cases hc : s.routing with
  | some cached =>
    simp only [hc] at h ⊢
    obtain ⟨w, q, hq, hfq, hrout, hfail, hms, -⟩ :=
      call_with_fallback_ok r now cached s resp h
    exact ⟨w, q, hrout, hq, hfq, hfail, hms⟩
  | none =>
    simp only [hc] at h ⊢
    obtain ⟨w, q, hq, hfq, hrout, hfail, hms, -⟩ :=
      call_with_fallback_ok r now (_select_provider r now s).1
        (_select_provider r now s).2.1 resp h
    refine ⟨w, q, hrout, hq, hfq, hfail, ?_⟩
    rw [hms, (select_provider_store_trace r now s).1,
      (selectLoop_frame r now (dictKeys r.provider_map) s).2.2.1]

/-- Witness for C5 (Scenario B shape): sticky primary "scraping" raises, the
fallback "external" succeeds; the assignment now names "external", it has no
FailureMark, and its success metric is 1. -/
theorem C5_success_round_trip_witness :
    (route_request fbRouter 1 0 stickyStore).1 = .ok sampleResponseB ∧
    (∃ w q, ((route_request fbRouter 1 0 stickyStore).2.1).routing = some w ∧
      dictGet fbRouter.provider_map w = some q ∧ q.fetch = .ok sampleResponseB ∧
      ((route_request fbRouter 1 0 stickyStore).2.1).failed w = none ∧
      ((route_request fbRouter 1 0 stickyStore).2.1).metricsSuccess w =
        incrCounter (stickyStore.metricsSuccess w)) :=
  ⟨by decide, C5_success_round_trip fbRouter 1 0 stickyStore sampleResponseB (by decide)⟩

/-- C6: with a cached routing assignment present, `route_request` is exactly
the call-with-fallback pass on the cached name — the selection pass is never
invoked (no recovery probe occurs) — and when the cached provider's fetch
succeeds, its fetch is the only provider call made. -/
theorem C6_sticky_idempotence (r : APIRouter) (u now : Int) (s : Store) (n : String)
    (hc : s.routing = some n) :
    route_request r u now s = _call_with_fallback r now n s ∧
    (∀ m, Event.probe m ∉ (route_request r u now s).2.2) ∧
    (∀ p resp, dictGet r.provider_map n = some p → p.fetch = .ok resp →
      (route_request r u now s).2.2 = [Event.fetch n]) := by
  have hroute : route_request r u now s = _call_with_fallback r now n s := by
    unfold route_request
    simp only [_get_cached_routing, hc]
  refine ⟨hroute, ?_, ?_⟩
  · intro m
    rw [hroute]
    exact call_with_fallback_no_probe r now n s m
  · intro p resp hp hf
    rw [hroute]
    unfold _call_with_fallback
    simp [hp, hf]

/-- Witness for C6: sticky assignment "scraping" with the default registry;
no probe happens and the only event is the single fetch of "scraping". -/
theorem C6_sticky_idempotence_witness :
    stickyStore.routing = some "scraping" ∧
    (∀ m, Event.probe m ∉ (route_request defaultRouter 1 0 stickyStore).2.2) ∧
    (route_request defaultRouter 1 0 stickyStore).2.2 = [Event.fetch "scraping"] := by
  have h := C6_sticky_idempotence defaultRouter 1 0 stickyStore "scraping" rfl
  exact ⟨rfl, h.2.1, h.2.2 scrapingUp sampleResponse (by decide) rfl⟩

/-- C10 (counterexample): with a registry lacking "scraping", no cached
assignment and no eligible provider because the single provider "ext" is past
cooldown and its recovery probe fails, `route_request` does raise the
provider-not-found error — but the selection pass re-stamps the FailureMark
of "ext" from `some 0` to `some 120`, so a FailureMark IS written by that
call, refuting the claim's "no FailureMark ... is written". -/
theorem C10_counterexample :
    "scraping" ∉ dictKeys noScrapingRouter.provider_map ∧
    failedExtStore.routing = none ∧
    eligibleProviders noScrapingRouter 120 failedExtStore = [] ∧
    (route_request noScrapingRouter 1 120 failedExtStore).1 =
      .error "Provider not found: scraping" ∧
    failedExtStore.failed "ext" = some 0 ∧
    (route_request noScrapingRouter 1 120 failedExtStore).2.1.failed "ext" =
      some 120 := by
  decide

/-- C10 (amended): for a registry with no provider named "scraping", if no
cached assignment exists and no provider is eligible, `route_request` raises
the provider-not-found error immediately: no provider's fetch is invoked and
no routing assignment or metric is written; FailureMarks are untouched except
that every registered provider whose cooldown had elapsed (and whose recovery
probe therefore failed) is re-stamped with the current time. -/
theorem C10_amended_no_scraping (r : APIRouter) (u now : Int) (s : Store)
    (hns : "scraping" ∉ dictKeys r.provider_map)
    (hro : s.routing = none)
    (helig : eligibleProviders r now s = []) :
    (route_request r u now s).1 = .error "Provider not found: scraping" ∧
    (∀ m, Event.fetch m ∉ (route_request r u now s).2.2) ∧
    ((route_request r u now s).2.1).routing = none ∧
    ((route_request r u now s).2.1).metricsSuccess = s.metricsSuccess ∧
    ((route_request r u now s).2.1).metricsFailure = s.metricsFailure ∧
    (∀ n, ((route_request r u now s).2.1).failed n =
      if n ∈ dictKeys r.provider_map ∧ _should_retry_provider now s n = true
      then some now else s.failed n) := by
  have hkeys := provider_map_keys_nodup r
  have hname : (_select_provider r now s).1 = "scraping" := by
    rw [select_provider_name, if_pos helig]
  have hgetS : dictGet r.provider_map "scraping" = none :=
    dictGet_eq_none_of_not_mem hns
  have hcall : _call_with_fallback r now (_select_provider r now s).1
      (_select_provider r now s).2.1 =
      (.error "Provider not found: scraping", (_select_provider r now s).2.1, []) := by
    rw [hname]
    exact call_with_fallback_not_found r now "scraping" _ hgetS
  have hroute : route_request r u now s =
      (.error "Provider not found: scraping", (_select_provider r now s).2.1,
        (_select_provider r now s).2.2 ++ []) := by
    unfold route_request
    simp only [_get_cached_routing, hro, hcall]
  obtain ⟨hst, hev⟩ := select_provider_store_trace r now s
  obtain ⟨hfr, hfh, hfs, hff⟩ := selectLoop_frame r now (dictKeys r.provider_map) s
  refine ⟨by rw [hroute], ?_, ?_, ?_, ?_, ?_⟩
  · intro m
    rw [hroute]
    simp only [List.append_nil]
    rw [hev]
    exact selectLoop_no_fetch r now _ s m hkeys
  · rw [hroute]
    dsimp only
    rw [hst, hfr]
    exact hro
  · rw [hroute]
    dsimp only
    rw [hst]
    exact hfs
  · rw [hroute]
    dsimp only
    rw [hst]
    exact hff
  · intro n
    rw [hroute]
    dsimp only
    rw [hst, (selectLoop_spec r now (dictKeys r.provider_map) s hkeys).2.1 n]
    by_cases hmem : n ∈ dictKeys r.provider_map
    · rw [if_pos hmem]
      by_cases hretry : _should_retry_provider now s n = true
      · rw [if_pos ⟨hmem, hretry⟩]
        cases hq : dictGet r.provider_map n with
        | none =>
          have hsome := dictGet_isSome_of_mem hmem
          rw [hq] at hsome
          simp at hsome
        | some q =>
          by_cases hh : q.health = .ok true
          · obtain ⟨t, hft, hle⟩ := (should_retry_iff now s n).mp hretry
            have helig_n : eligibleNow r now s n = true := by
              rw [eligibleNow_of_retry hft hle hq, hh]
              rfl
            have hin : n ∈ eligibleProviders r now s :=
              (List.mem_filter.mpr ⟨hmem, helig_n⟩ :
                n ∈ (dictKeys r.provider_map).filter (eligibleNow r now s))
            rw [helig] at hin
            exact absurd hin (List.not_mem_nil n)
          · exact postFailed_of_retry_bad hretry hq hh
      · rw [Bool.not_eq_true] at hretry
        rw [if_neg (by simp [hretry])]
        exact postFailed_of_noretry hretry
    · rw [if_neg hmem, if_neg (by simp [hmem])]

/-- Witness for C10 (amended): the concrete no-"scraping" registry and failed
"ext" store: the call raises provider-not-found and performs no fetch. -/
theorem C10_amended_witness :
    ("scraping" ∉ dictKeys noScrapingRouter.provider_map ∧
      failedExtStore.routing = none ∧
      eligibleProviders noScrapingRouter 120 failedExtStore = []) ∧
    (route_request noScrapingRouter 1 120 failedExtStore).1 =
      .error "Provider not found: scraping" ∧
    (∀ m, Event.fetch m ∉ (route_request noScrapingRouter 1 120 failedExtStore).2.2) := by
  have h := C10_amended_no_scraping noScrapingRouter 1 120 failedExtStore
    (by decide) (by decide) (by decide)
  exact ⟨⟨by decide, by decide, by decide⟩, h.1, h.2.1⟩

/-! ### Congruence in the non-metric store components (for C9)

`route_request` never reads the metric counters; formally, two stores that
agree on `routing`, `failed` and `health` (and may differ arbitrarily in the
metric fields) produce the same result, the same call trace, and stores that
again agree on those three components. -/

namespace APIRouter

theorem try_recovery_parts_congr (r : APIRouter) (now : Int) (a : String)
    (s1 s2 : Store) (hf : s1.failed = s2.failed) :
    (_try_recovery r now s1 a).1 = (_try_recovery r now s2 a).1 ∧
    (_try_recovery r now s1 a).2.1.failed = (_try_recovery r now s2 a).2.1.failed ∧
    (_try_recovery r now s1 a).2.2 = (_try_recovery r now s2 a).2.2 := by
  cases hg : dictGet r.provider_map a with
  | none =>
    rw [try_recovery_eq_of_none r now s1 a hg, try_recovery_eq_of_none r now s2 a hg]
    exact ⟨rfl, hf, rfl⟩
  | some p =>
    by_cases hh : p.health = .ok true
    · rw [try_recovery_eq_of_ok r now s1 a p hg hh,
        try_recovery_eq_of_ok r now s2 a p hg hh]
      refine ⟨rfl, ?_, rfl⟩
      funext n
      simp [_clear_failed_timestamp, congrFun hf n]
    · rw [try_recovery_eq_of_bad r now s1 a p hg hh,
        try_recovery_eq_of_bad r now s2 a p hg hh]
      refine ⟨rfl, ?_, rfl⟩
      funext n
      simp [_mark_provider_failed, congrFun hf n]

theorem selectLoop_parts_congr (r : APIRouter) (now : Int) (names : List String) :
    ∀ s1 s2 : Store, s1.failed = s2.failed →
      (selectLoop r now names s1).1 = (selectLoop r now names s2).1 ∧
      (selectLoop r now names s1).2.1.failed = (selectLoop r now names s2).2.1.failed ∧
      (selectLoop r now names s1).2.2 = (selectLoop r now names s2).2.2 := by
  induction names with
  | nil =>
    intro s1 s2 hf
    exact ⟨rfl, hf, rfl⟩
  | cons a rest ih =>
    intro s1 s2 hf
    have hretry : _should_retry_provider now s1 a = _should_retry_provider now s2 a :=
      should_retry_congr (congrFun hf a)
    have hisf : _is_provider_failed s1 a = _is_provider_failed s2 a :=
      is_failed_congr (congrFun hf a)
    obtain ⟨t1, t2, t3⟩ := try_recovery_parts_congr r now a s1 s2 hf
    by_cases h1 : _should_retry_provider now s2 a
    · obtain ⟨q1, q2, q3⟩ :=
        ih (_try_recovery r now s1 a).2.1 (_try_recovery r now s2 a).2.1 t2
      simp only [selectLoop, hretry, h1, if_true]
      refine ⟨?_, q2, ?_⟩
      · rw [t1, q1]
      · rw [t3, q3]
    · rw [Bool.not_eq_true] at h1
      by_cases h2 : _is_provider_failed s2 a
      · obtain ⟨q1, q2, q3⟩ := ih s1 s2 hf
        simp only [selectLoop, hretry, h1, Bool.false_eq_true, if_false, hisf, h2,
          if_true]
        exact ⟨q1, q2, q3⟩
      · rw [Bool.not_eq_true] at h2
        obtain ⟨q1, q2, q3⟩ := ih s1 s2 hf
        simp only [selectLoop, hretry, h1, Bool.false_eq_true, if_false, hisf, h2]
        exact ⟨congrArg (List.cons a) q1, q2, q3⟩

theorem select_provider_parts_congr (r : APIRouter) (now : Int) (s1 s2 : Store)
    (hf : s1.failed = s2.failed) :
    (_select_provider r now s1).1 = (_select_provider r now s2).1 ∧
    (_select_provider r now s1).2.1.failed = (_select_provider r now s2).2.1.failed ∧
    (_select_provider r now s1).2.2 = (_select_provider r now s2).2.2 := by
  obtain ⟨a1, a2, a3⟩ := selectLoop_parts_congr r now (dictKeys r.provider_map) s1 s2 hf
  unfold _select_provider
  cases hq : (selectLoop r now (dictKeys r.provider_map) s2).1 with
  | nil =>
    have hq1 : (selectLoop r now (dictKeys r.provider_map) s1).1 = [] := a1.trans hq
    simp only [hq, hq1]
    exact ⟨by trivial, a2, a3⟩
  | cons a l =>
    have hq1 : (selectLoop r now (dictKeys r.provider_map) s1).1 = a :: l := a1.trans hq
    by_cases hc : (a :: l).contains "scraping"
    · simp only [hq, hq1, hc, if_true]
      exact ⟨by trivial, a2, a3⟩
    · rw [Bool.not_eq_true] at hc
      simp only [hq, hq1, hc, Bool.false_eq_true, if_false]
      exact ⟨by trivial, a2, a3⟩

theorem fallbackLoop_parts_congr (r : APIRouter) (now : Int) (names : List String) :
    ∀ s1 s2 : Store,
      s1.routing = s2.routing → s1.failed = s2.failed → s1.health = s2.health →
      (fallbackLoop r now names s1).1 = (fallbackLoop r now names s2).1 ∧
      (fallbackLoop r now names s1).2.1.routing =
        (fallbackLoop r now names s2).2.1.routing ∧
      (fallbackLoop r now names s1).2.1.failed =
        (fallbackLoop r now names s2).2.1.failed ∧
      (fallbackLoop r now names s1).2.1.health =
        (fallbackLoop r now names s2).2.1.health ∧
      (fallbackLoop r now names s1).2.2 = (fallbackLoop r now names s2).2.2 := by
  induction names with
  | nil =>
    intro s1 s2 hr hf hh
    exact ⟨rfl, hr, hf, hh, rfl⟩
  | cons a rest ih =>
    intro s1 s2 hr hf hh
    have hfmark :
        (_mark_provider_failed now (_increment_failure_metric s1 a) a).failed =
          (_mark_provider_failed now (_increment_failure_metric s2 a) a).failed := by
      funext n
      simp [_mark_provider_failed, _increment_failure_metric, congrFun hf n]
    cases hg : dictGet r.provider_map a with
    | none =>
      simp only [fallbackLoop, hg]
      exact ih _ _ hr hfmark hh
    | some p =>
      cases hpf : p.fetch with
      | ok resp =>
        simp only [fallbackLoop, hg, hpf]
        refine ⟨by trivial, by trivial, ?_, hh, by trivial⟩
        funext n
        simp [_clear_failed_timestamp, _increment_success_metric, _set_cached_routing,
          congrFun hf n]
      | exn e =>
        obtain ⟨b1, b2, b3, b4, b5⟩ := ih
          (_mark_provider_failed now (_increment_failure_metric s1 a) a)
          (_mark_provider_failed now (_increment_failure_metric s2 a) a)
          hr hfmark hh
        simp only [fallbackLoop, hg, hpf]
        exact ⟨b1, b2, b3, b4, by rw [b5]⟩

theorem call_with_fallback_parts_congr (r : APIRouter) (now : Int) (primary : String)
    (s1 s2 : Store) (hr : s1.routing = s2.routing) (hf : s1.failed = s2.failed)
    (hh : s1.health = s2.health) :
    (_call_with_fallback r now primary s1).1 =
      (_call_with_fallback r now primary s2).1 ∧
    (_call_with_fallback r now primary s1).2.1.routing =
      (_call_with_fallback r now primary s2).2.1.routing ∧
    (_call_with_fallback r now primary s1).2.1.failed =
      (_call_with_fallback r now primary s2).2.1.failed ∧
    (_call_with_fallback r now primary s1).2.1.health =
      (_call_with_fallback r now primary s2).2.1.health ∧
    (_call_with_fallback r now primary s1).2.2 =
      (_call_with_fallback r now primary s2).2.2 := by
  have hfmark :
      (_mark_provider_failed now (_increment_failure_metric s1 primary) primary).failed =
        (_mark_provider_failed now (_increment_failure_metric s2 primary) primary).failed := by
    funext n
    simp [_mark_provider_failed, _increment_failure_metric, congrFun hf n]
  cases hg : dictGet r.provider_map primary with
  | none =>
    simp only [_call_with_fallback, hg]
    exact ⟨by trivial, hr, hf, hh, by trivial⟩
  | some p =>
    cases hpf : p.fetch with
    | ok resp =>
      simp only [_call_with_fallback, hg, hpf]
      refine ⟨by trivial, by trivial, ?_, hh, by trivial⟩
      funext n
      simp [_clear_failed_timestamp, _increment_success_metric, _set_cached_routing,
        congrFun hf n]
    | exn e =>
      by_cases hemp :
          ((dictKeys r.provider_map).filter (fun n => n != primary)).isEmpty
      · simp only [_call_with_fallback, hg, hpf, hemp, eq_self_iff_true, if_true]
        exact ⟨by trivial, hr, hfmark, hh, by trivial⟩
      · rw [Bool.not_eq_true] at hemp
        obtain ⟨b1, b2, b3, b4, b5⟩ := fallbackLoop_parts_congr r now
          ((dictKeys r.provider_map).filter (fun n => n != primary))
          (_mark_provider_failed now (_increment_failure_metric s1 primary) primary)
          (_mark_provider_failed now (_increment_failure_metric s2 primary) primary)
          hr hfmark hh
        simp only [_call_with_fallback, hg, hpf, hemp, Bool.false_eq_true, if_false]
        exact ⟨b1, b2, b3, b4, by rw [b5]⟩

end APIRouter

/-- C9: metric noninterference.  For any two stores that agree on the
routing assignment, the failure marks and the health records — i.e. differ
only in the metric counters — `route_request` returns the same result, makes
the same sequence of provider calls, and leaves stores that again agree on
those three components: the dispatcher writes metrics but never reads them. -/
theorem C9_metric_noninterference (r : APIRouter) (u now : Int) (s1 s2 : Store)
    (hr : s1.routing = s2.routing) (hf : s1.failed = s2.failed)
    (hh : s1.health = s2.health) :
    (route_request r u now s1).1 = (route_request r u now s2).1 ∧
    (route_request r u now s1).2.2 = (route_request r u now s2).2.2 ∧
    ((route_request r u now s1).2.1).routing = ((route_request r u now s2).2.1).routing ∧
    ((route_request r u now s1).2.1).failed = ((route_request r u now s2).2.1).failed ∧
    ((route_request r u now s1).2.1).health = ((route_request r u now s2).2.1).health := by
  unfold route_request
  simp only [_get_cached_routing, hr]
  cases hro : s2.routing with
  | some cached =>
    obtain ⟨c1, c2, c3, c4, c5⟩ :=
      call_with_fallback_parts_congr r now cached s1 s2 hr hf hh
    exact ⟨c1, c5, c2, c3, c4⟩
  | none =>
    obtain ⟨n1, n2, n3⟩ := select_provider_parts_congr r now s1 s2 hf
    obtain ⟨hst1, hev1⟩ := select_provider_store_trace r now s1
    obtain ⟨hst2, hev2⟩ := select_provider_store_trace r now s2
    obtain ⟨fr1, fh1, -, -⟩ := selectLoop_frame r now (dictKeys r.provider_map) s1
    obtain ⟨fr2, fh2, -, -⟩ := selectLoop_frame r now (dictKeys r.provider_map) s2
    have hrsel : (_select_provider r now s1).2.1.routing =
        (_select_provider r now s2).2.1.routing := by
      rw [hst1, hst2, fr1, fr2, hr]
    have hhsel : (_select_provider r now s1).2.1.health =
        (_select_provider r now s2).2.1.health := by
      rw [hst1, hst2, fh1, fh2, hh]
    obtain ⟨c1, c2, c3, c4, c5⟩ := call_with_fallback_parts_congr r now
      (_select_provider r now s2).1 (_select_provider r now s1).2.1
      (_select_provider r now s2).2.1 hrsel n2 hhsel
    refine ⟨?_, ?_, ?_, ?_, ?_⟩ <;> dsimp only <;> rw [n1]
    · exact c1
    · rw [n3, c5]
    · exact c2
    · exact c3
    · exact c4

/-- Witness for C9: the empty store versus the same store with nonzero
success/failure counters for every provider: routing decisions coincide. -/
theorem C9_metric_noninterference_witness :
    (emptyStore.routing = metricStore.routing ∧
      emptyStore.failed = metricStore.failed ∧
      emptyStore.health = metricStore.health) ∧
    (route_request defaultRouter 1 0 emptyStore).1 =
      (route_request defaultRouter 1 0 metricStore).1 ∧
    (route_request defaultRouter 1 0 emptyStore).2.2 =
      (route_request defaultRouter 1 0 metricStore).2.2 :=
  ⟨⟨rfl, rfl, rfl⟩,
    (C9_metric_noninterference defaultRouter 1 0 emptyStore metricStore rfl rfl rfl).1,
    (C9_metric_noninterference defaultRouter 1 0 emptyStore metricStore rfl rfl rfl).2.1⟩

end WeatherRouting
